import Mathlib

/-!
Verification of the capture/codec media pipeline of the mirror repository.

The definitions below are shallow embeddings of the C++ sources:
  * src/capture/lib/capture.cpp  (device enumeration, input selection, camera backend)
  * src/codec/lib/video_encode.cpp  (encoder session: read_packet, release)
  * src/codec/lib/video_decode.cpp  (decoder session: send_packet, read_frame, release)
  * src/codec/lib/audio_decode.cpp  (audio decoder: send_packet)

External engines (Media Foundation, libobs, FFmpeg/avcodec) are modelled as
oracles: a platform call's outcome, an engine's pending packet/frame queue, or
a parser's per-pass result is an explicit input to the embedded function, and
the embedded function reproduces exactly the control flow the C++ code performs
around those calls.
-/

/- ===================== Capture data model (capture.h / capture.cpp) ===================== -/

/-- Device kinds, from enum DeviceType in src/capture/lib/capture.h. -/
inductive DeviceType
  | kDeviceTypeVideo
  | kDeviceTypeAudio
  | kDeviceTypeScreen
  | kDeviceTypeWindow
deriving DecidableEq

/-- Source descriptor, from struct DeviceDescription as populated by
src/capture/lib/capture.cpp (enum_camera lines 246-250 and
capture_get_device_list lines 658-662 both assign type, name, id and index). -/
structure DeviceDescription where
  type : DeviceType
  id : String
  name : String
  index : Nat
deriving DecidableEq

/-- Outcome of reading one enumerated camera device inside the enum_camera loop
(capture.cpp lines 209-254): `nameOk` means GetAllocatedString and malloc both
succeeded; `allocFail` means malloc returned null (the loop does `continue`,
skipping the device); `readFail` means GetAllocatedString failed (the loop does
`break`, ending enumeration). -/
inductive CamDeviceRead
  | nameOk (name : String)
  | allocFail
  | readFail

/-- The device-building loop of enum_camera (capture.cpp lines 209-254).
The counter `i` is the platform loop index; a descriptor built at platform
index `i` gets `index := i` (line 250) whether or not earlier entries were
skipped by `continue`. `readFail` reproduces the `break`. -/
def enum_camera_loop : List CamDeviceRead → Nat → List DeviceDescription
  | [], _ => []
  | CamDeviceRead.nameOk n :: rest, i =>
      { type := DeviceType.kDeviceTypeVideo, id := n, name := n, index := i } ::
        enum_camera_loop rest (i + 1)
  | CamDeviceRead.allocFail :: rest, i => enum_camera_loop rest (i + 1)
  | CamDeviceRead.readFail :: _, _ => []

/-- enum_camera (capture.cpp lines 194-257).  The platform oracle is the result
of MFEnumDeviceSources: `none` when the call failed, `some devs` when it
succeeded with `devs.length` attached devices.  Line 204 returns status -1 when
the call failed OR when it reported zero devices; otherwise the loop runs and
status 0 is returned (line 256). -/
def enum_camera (platform : Option (List CamDeviceRead)) : Int × List DeviceDescription :=
  match platform with
  | none => (-1, [])
  | some devs =>
      if devs.length = 0 then (-1, [])
      else (0, enum_camera_loop devs 0)

/-- One item of an obs property list: (id, name) as read by
obs_property_list_item_string / obs_property_list_item_name
(capture.cpp lines 652, 659). -/
structure PropertyItem where
  id : String
  name : String
deriving DecidableEq

/-- The item loop of capture_get_device_list (capture.cpp lines 649-666).
For the audio kind an item whose id is "default" is skipped (lines 652-656);
every built descriptor records the property-list index `i` (line 661), not its
position in the output list. -/
def device_list_loop (type : DeviceType) : List PropertyItem → Nat → List DeviceDescription
  | [], _ => []
  | item :: rest, i =>
      if type = DeviceType.kDeviceTypeAudio ∧ item.id = "default" then
        device_list_loop type rest (i + 1)
      else
        { type := type, id := item.id, name := item.name, index := i } ::
          device_list_loop type rest (i + 1)

/-- capture_get_device_list for the non-camera kinds (capture.cpp lines
614-673): it walks the matching source's property list and always returns
status 0 (line 672).  The camera kind dispatches to enum_camera (line 624) and
is modelled by `enum_camera` above. -/
def capture_get_device_list (type : DeviceType) (items : List PropertyItem) :
    Int × List DeviceDescription :=
  (0, device_list_loop type items 0)

/- ===================== Camera backend activation (capture.cpp) ===================== -/

/-- Platform-call outcomes for the eight fallible sub-steps of set_camera
(capture.cpp lines 315-377), in call order. -/
structure CamSteps where
  createSource : Bool
  createReader : Bool
  createMediaType : Bool
  setMajorType : Bool
  setSubtype : Bool
  setFrameSize : Bool
  setFrameRate : Bool
  setCurrentMediaType : Bool

/-- The allocation state of the global camera backend (struct Camera, capture.cpp
lines 34-43): which COM resources are currently held, whether the capture flag
is_runing is set, and how many detached frame_loop threads have been spawned
and not yet stopped. -/
structure CameraState where
  source : Bool
  reader : Bool
  kind : Bool
  is_runing : Bool
  threads : Nat

/-- set_camera (capture.cpp lines 315-377).  Each failing sub-step returns its
negative code immediately; resources assigned by earlier successful sub-steps
(GLOBAL.camera.source at line 317, .reader at line 324, .kind at line 332) stay
assigned, since no failure path releases anything.  On success is_runing is set
and a detached frame_loop thread is spawned (lines 373-374); any thread already
running keeps running because nothing stops it here. -/
def set_camera (st : CameraState) (s : CamSteps) : Int × CameraState :=
  if s.createSource = false then (-1, st)
  else
    let st1 := { st with source := true }
    if s.createReader = false then (-2, st1)
    else
      let st2 := { st1 with reader := true }
      if s.createMediaType = false then (-3, st2)
      else
        let st3 := { st2 with kind := true }
        if s.setMajorType = false then (-4, st3)
        else if s.setSubtype = false then (-5, st3)
        else if s.setFrameSize = false then (-6, st3)
        else if s.setFrameRate = false then (-7, st3)
        else if s.setCurrentMediaType = false then (-8, st3)
        else (0, { st3 with is_runing := true, threads := st3.threads + 1 })

/-- stop_camera (capture.cpp lines 379-414): clears is_runing (ending every
frame_loop thread) and releases all camera resources.  Called only from
capture_stop (line 589), never from capture_set_video_input. -/
def stop_camera (_st : CameraState) : CameraState :=
  { source := false, reader := false, kind := false, is_runing := false, threads := 0 }

/-- Process-wide capture state (the GLOBAL singleton of capture.cpp):
whether capture_start registered the obs raw callbacks (lines 541-547), the
visibility of the monitor and window scene items (toggled in
update_monitor_settings / update_window_settings, lines 98-99 and 118-119),
the audio source's device id (update_audio_settings, line 130), and the camera
backend state. -/
structure CaptureState where
  obsStarted : Bool
  monitorVisible : Bool
  windowVisible : Bool
  audioDeviceId : String
  camera : CameraState

/-- capture_set_video_input (capture.cpp lines 592-612) together with the
update_*_settings helpers it dispatches to.  Camera input runs set_camera and
returns its code; screen input makes the monitor item visible and hides the
window item (lines 98-99); window input does the reverse (lines 118-119);
audio input updates the audio source's device id (line 130).  No branch stops
a running camera or touches obs registration. -/
def capture_set_video_input (st : CaptureState) (d : DeviceDescription) (steps : CamSteps) :
    Int × CaptureState :=
  match d.type with
  | DeviceType.kDeviceTypeVideo =>
      let r := set_camera st.camera steps
      (r.fst, { st with camera := r.snd })
  | DeviceType.kDeviceTypeScreen =>
      (0, { st with monitorVisible := true, windowVisible := false })
  | DeviceType.kDeviceTypeAudio =>
      (0, { st with audioDeviceId := d.id })
  | DeviceType.kDeviceTypeWindow =>
      (0, { st with windowVisible := true, monitorVisible := false })

/-- The obs compositor backend emits frames into the output callback whenever
capture has started and a compositor video source is visible
(raw_video_callback is registered once in capture_start, line 541; the visible
scene item's content is what reaches it). -/
def obsVideoActive (st : CaptureState) : Bool :=
  st.obsStarted && (st.monitorVisible || st.windowVisible)

/-- The camera backend emits frames into the output callback whenever at least
one frame_loop thread is running (lines 259-313: each thread loops while
is_runing and calls output_callback.video). -/
def cameraActive (st : CaptureState) : Bool :=
  st.camera.is_runing && decide (0 < st.camera.threads)

/-- Number of distinct capture backends currently emitting frames into the
raw-frame dispatcher (the registered output callback). -/
def activeVideoBackends (st : CaptureState) : Nat :=
  (if obsVideoActive st then 1 else 0) + (if cameraActive st then 1 else 0)

/- ===================== Encoder session (video_encode.cpp) ===================== -/

/-- FFmpeg packet flag AV_PKT_FLAG_KEY: set on key-frame packets delivered by
avcodec_receive_packet. -/
def AV_PKT_FLAG_KEY : Nat := 1

/-- The repository's own configuration-packet flag value, BufferFlag::Config
(the taxonomy used by the encoder variant in src/codec/lib/h264.cpp, line 458,
where a configuration packet is emitted with flags = 2). -/
def BUFFER_FLAG_CONFIG : Nat := 2

/-- One packet produced by the codec engine, as drained by
avcodec_receive_packet: payload bytes, size and FFmpeg packet flags. -/
structure EnginePacket where
  data : List Nat
  size : Nat
  flags : Nat

/-- struct EncodePacket (codec.h lines 28-33): the caller-visible staging
object filled by codec_video_encoder_read_packet. -/
structure EncodePacket where
  buffer : List Nat
  len : Nat
  flags : Nat

/-- Encoder session state relevant to read_packet: the staging output object
(allocated at creation, codec.cpp line 21; null only conceptually) and the
engine's queue of packets still pending in avcodec_receive_packet order. -/
structure VideoEncoder where
  output_packet : Option EncodePacket
  engineQueue : List EnginePacket

/-- Copy of the engine packet fields into the staging object, exactly the
assignments of video_encode.cpp lines 178-180. -/
def toEncodePacket (p : EnginePacket) : EncodePacket :=
  { buffer := p.data, len := p.size, flags := p.flags }

/-- codec_video_encoder_read_packet (video_encode.cpp lines 166-182): null
staging object gives null; an empty engine queue (avcodec_receive_packet != 0)
gives null; otherwise the head packet's data, flags and size are copied into
the staging object verbatim and returned.  No flag is added, removed or
rewritten, and no packet is synthesised. -/
def codec_video_encoder_read_packet (codec : VideoEncoder) :
    Option EncodePacket × VideoEncoder :=
  match codec.output_packet with
  | none => (none, codec)
  | some _ =>
      match codec.engineQueue with
      | [] => (none, codec)
      | p :: rest =>
          let out := toEncodePacket p
          (some out, { output_packet := some out, engineQueue := rest })

/-- Repeatedly call read_packet, collecting the successful results in order
until a null result or the call budget runs out. -/
def readPackets : VideoEncoder → Nat → List EncodePacket
  | _, 0 => []
  | codec, n + 1 =>
      match codec_video_encoder_read_packet codec with
      | (none, _) => []
      | (some p, codec') => p :: readPackets codec' n

/- ===================== Codec session destruction (video_encode.cpp / video_decode.cpp) ===================== -/

/-- FFmpeg pixel-format tags used by the decoder: AV_PIX_FMT_YUV420P and
AV_PIX_FMT_NV12 (the canonical semi-planar layout the pipeline expects). -/
def AV_PIX_FMT_YUV420P : Int := 0

/-- AV_PIX_FMT_NV12, the canonical semi-planar output layout. -/
def AV_PIX_FMT_NV12 : Int := 23

/-- Release events observable by a mock engine during session destruction. -/
inductive ReleaseEv
  | freeConvBuffers
  | freeContext
  | freeParser
  | freePacket
  | freeFrame
  | freeStaging
deriving DecidableEq

/-- Which members of a VideoEncoder session are non-null at destruction time. -/
structure VideoEncoderFields where
  context : Bool
  packet : Bool
  frame : Bool

/-- codec_release_video_encoder (video_encode.cpp lines 189-208) as the ordered
trace of release calls it performs: avcodec_free_context first (lines 191-194),
then av_packet_free (lines 196-199), then av_frame_free (lines 201-204), then
delete of the staging output packet (line 206). -/
def codec_release_video_encoder_trace (c : VideoEncoderFields) : List ReleaseEv :=
  (if c.context then [ReleaseEv.freeContext] else []) ++
  (if c.packet then [ReleaseEv.freePacket] else []) ++
  (if c.frame then [ReleaseEv.freeFrame] else []) ++
  [ReleaseEv.freeStaging]

/-- Which members of a VideoDecoder session are non-null at destruction time,
plus the recorded first-frame pixel format (codec.h line 70: format_format). -/
structure VideoDecoderFields where
  format_format : Option Int
  outFrameData : Bool
  context : Bool
  parser : Bool
  packet : Bool
  frame : Bool

/-- codec_release_video_decoder (video_decode.cpp lines 93-131) as the ordered
trace of release calls: the conversion buffers are deleted first when a
non-NV12 first-frame format was recorded (lines 95-107), then
avcodec_free_context (lines 109-112), then av_parser_close (lines 114-117),
then av_packet_free (lines 119-122), then av_frame_free (lines 124-127), then
delete of the staging output frame (line 129). -/
def codec_release_video_decoder_trace (c : VideoDecoderFields) : List ReleaseEv :=
  (if (match c.format_format with
       | some f => decide (f ≠ AV_PIX_FMT_NV12)
       | none => false) && c.outFrameData then [ReleaseEv.freeConvBuffers] else []) ++
  (if c.context then [ReleaseEv.freeContext] else []) ++
  (if c.parser then [ReleaseEv.freeParser] else []) ++
  (if c.packet then [ReleaseEv.freePacket] else []) ++
  (if c.frame then [ReleaseEv.freeFrame] else []) ++
  [ReleaseEv.freeStaging]

/- ===================== Decoder read_frame (video_decode.cpp) ===================== -/

/-- One decoded frame as surfaced by avcodec_receive_frame: pixel format and
dimensions plus the engine's plane linesizes. -/
structure EngineFrame where
  format : Int
  width : Nat
  height : Nat
  linesize0 : Nat
  linesize1 : Nat

/-- The staging VideoFrame owned by the session (codec.h line 69), tracking the
fields read_frame mutates: the published rect, the dimensions the conversion
buffers were allocated with (none while unallocated), the plane linesizes, and
the dimensions passed to the last I420ToNV12 conversion. -/
structure OutputVideoFrame where
  width : Nat
  height : Nat
  allocDims : Option (Nat × Nat)
  linesize0 : Nat
  linesize1 : Nat
  lastConvDims : Option (Nat × Nat)

/-- Decoder session state relevant to read_frame: the recorded first-frame
format (format_format, codec.h line 70), the staging output frame, and the
engine's queue of decoded frames pending in avcodec_receive_frame order. -/
structure VideoDecoderSt where
  format_format : Option Int
  output_frame : OutputVideoFrame
  engineFrames : List EngineFrame

/-- codec_video_decoder_read_frame (video_decode.cpp lines 200-252).  An empty
engine queue (avcodec_receive_frame != 0) returns null and changes nothing.
Otherwise the staging rect is set from the frame (lines 209-210); if the frame
format is not NV12 and no format was recorded yet, conversion buffers sized
from THIS frame's dimensions are allocated and the linesizes set to its width
(lines 212-220); the first observed format is then recorded (lines 222-225);
a non-NV12 frame is converted with I420ToNV12 using the CURRENT frame's
dimensions — no comparison against the allocation dimensions is made and the
buffers are never reallocated (lines 227-241); an NV12 frame is passed through
with the engine's linesizes (lines 242-249).  The staging frame is returned
(line 251): the function has no failure path after a frame is received. -/
def codec_video_decoder_read_frame (c : VideoDecoderSt) :
    Option OutputVideoFrame × VideoDecoderSt :=
  match c.engineFrames with
  | [] => (none, c)
  | f :: rest =>
      let o1 := { c.output_frame with width := f.width, height := f.height }
      let o2 :=
        if f.format ≠ AV_PIX_FMT_NV12 ∧ c.format_format = none then
          { o1 with allocDims := some (f.width, f.height),
                    linesize0 := f.width, linesize1 := f.width }
        else o1
      let ff := if c.format_format = none then some f.format else c.format_format
      let o3 :=
        if f.format ≠ AV_PIX_FMT_NV12 then
          { o2 with lastConvDims := some (f.width, f.height) }
        else
          { o2 with linesize0 := f.linesize0, linesize1 := f.linesize1 }
      (some o3, { format_format := ff, output_frame := o3, engineFrames := rest })

/- ===================== Decoder send_packet (video_decode.cpp / audio_decode.cpp) ===================== -/

/-- Result of one av_parser_parse2 pass: `perr` is a negative return (parse
error); `pok consumed auSize` is a non-negative return where `consumed` bytes
of the input were used and the parser produced an access unit of `auSize`
bytes (auSize = 0 means no complete access unit yet). -/
inductive ParseStep
  | perr
  | pok (consumed : Nat) (auSize : Nat)

/-- Observable events of one send_packet call: a parser pass that failed, a
parser pass that consumed bytes and produced an access unit of the given size,
and a submission of an access unit to the decoding engine with its outcome. -/
inductive DecodeEv
  | parseFail
  | parsePass (consumed : Nat) (auSize : Nat)
  | submitAU (auSize : Nat) (ok : Bool)

/-- Result of a terminated send_packet call: the returned boolean, the event
trace, and the unconsumed parser / engine oracle suffixes (so that a call that
performs no pass provably leaves both oracles untouched). -/
structure SendOutcome where
  ok : Bool
  evs : List DecodeEv
  passesLeft : List ParseStep
  engineLeft : List Bool

/-- The while-loop of codec_video_decoder_send_packet (video_decode.cpp lines
145-195): while bytes remain, run one parser pass; a negative parse result
returns false (lines 180-183); otherwise advance by the consumed byte count
(lines 185-186) and, if the pass completed an access unit, submit it to the
engine before the next pass, returning false if the engine rejects it (lines
188-194); when the buffer is exhausted return true (line 197).  The parser
oracle lists the per-pass results in order and the engine oracle lists the
avcodec_send_packet outcomes in order; `none` marks behaviour outside the
model (an exhausted oracle, or a pass claiming more bytes than remain, which
in the C code would wrap the size_t byte count). -/
def send_packet_loop : List ParseStep → List Bool → Nat → Option SendOutcome
  | passes, engine, 0 => some ⟨true, [], passes, engine⟩
  | [], _, _ + 1 => none
  | ParseStep.perr :: ps, engine, _ + 1 =>
      some ⟨false, [DecodeEv.parseFail], ps, engine⟩
  | ParseStep.pok c 0 :: ps, engine, n + 1 =>
      if c ≤ n + 1 then
        (send_packet_loop ps engine (n + 1 - c)).map
          (fun o => { o with evs := DecodeEv.parsePass c 0 :: o.evs })
      else none
  | ParseStep.pok _ (_ + 1) :: _, [], _ + 1 => none
  | ParseStep.pok c (a + 1) :: ps, true :: es, n + 1 =>
      if c ≤ n + 1 then
        (send_packet_loop ps es (n + 1 - c)).map
          (fun o => { o with
            evs := DecodeEv.parsePass c (a + 1) :: DecodeEv.submitAU (a + 1) true :: o.evs })
      else none
  | ParseStep.pok c (a + 1) :: ps, false :: es, n + 1 =>
      if c ≤ n + 1 then
        some ⟨false, [DecodeEv.parsePass c (a + 1), DecodeEv.submitAU (a + 1) false], ps, es⟩
      else none

/-- codec_video_decoder_send_packet (video_decode.cpp lines 133-198): a null
buffer returns true immediately without touching parser or engine (lines
139-142); otherwise the parse-and-submit loop runs over the `size` buffer
bytes. -/
def codec_video_decoder_send_packet (bufIsNull : Bool) (size : Nat)
    (passes : List ParseStep) (engine : List Bool) : Option SendOutcome :=
  if bufIsNull then some ⟨true, [], passes, engine⟩
  else send_packet_loop passes engine size

/-- codec_audio_decoder_send_packet (audio_decode.cpp lines 97-139): identical
control flow to the video variant — null buffer returns true immediately
(lines 103-106); the while (size > 0) loop parses (lines 110-118), fails on a
negative parse result (lines 119-122), advances by the consumed count (lines
124-125), skips submission when no access unit completed (lines 127-130;
`continue`), and submits each completed access unit before the next pass,
failing if the engine rejects it (lines 132-135). -/
def codec_audio_decoder_send_packet (bufIsNull : Bool) (size : Nat)
    (passes : List ParseStep) (engine : List Bool) : Option SendOutcome :=
  if bufIsNull then some ⟨true, [], passes, engine⟩
  else send_packet_loop passes engine size

/-- Total number of input bytes consumed by the parser passes of a trace. -/
def consumedSum : List DecodeEv → Nat
  | [] => 0
  | DecodeEv.parsePass c _ :: r => c + consumedSum r
  | DecodeEv.parseFail :: r => consumedSum r
  | DecodeEv.submitAU _ _ :: r => consumedSum r

/-- Whether a trace contains a failed parser pass or a rejected submission. -/
def hasFailure : List DecodeEv → Bool
  | [] => false
  | DecodeEv.parseFail :: _ => true
  | DecodeEv.parsePass _ _ :: r => hasFailure r
  | DecodeEv.submitAU _ ok :: r => !ok || hasFailure r

/-- Shape of a well-interleaved trace: every parser pass that completes an
access unit is immediately followed by the submission of exactly that access
unit (so each access unit reaches the engine before the next parser pass), a
failed pass ends the trace, and submissions appear nowhere else. -/
def goodShape : List DecodeEv → Bool
  | [] => true
  | DecodeEv.parseFail :: rest => rest.isEmpty
  | DecodeEv.submitAU _ _ :: _ => false
  | DecodeEv.parsePass _ 0 :: rest => goodShape rest
  | DecodeEv.parsePass _ (a + 1) :: DecodeEv.submitAU b _ :: rest =>
      (a + 1 == b) && goodShape rest
  | DecodeEv.parsePass _ (_ + 1) :: [] => false
  | DecodeEv.parsePass _ (_ + 1) :: DecodeEv.parseFail :: _ => false
  | DecodeEv.parsePass _ (_ + 1) :: DecodeEv.parsePass _ _ :: _ => false

/- ===================== Concrete states used by witnesses and counterexamples ===================== -/

/-- Camera backend state right after capture_init: nothing allocated. -/
def camInit : CameraState :=
  { source := false, reader := false, kind := false, is_runing := false, threads := 0 }

/-- Camera backend state holding the three COM resources but not capturing. -/
def camAllRes : CameraState :=
  { source := true, reader := true, kind := true, is_runing := false, threads := 0 }

/-- Process state right after a successful capture_start: obs callbacks
registered, no compositor item selected yet, no camera running. -/
def captureAfterStart : CaptureState :=
  { obsStarted := true, monitorVisible := false, windowVisible := false,
    audioDeviceId := "default", camera := camInit }

/-- Process state with a camera capture thread already running. -/
def captureCamOn : CaptureState :=
  { captureAfterStart with camera := { camInit with is_runing := true, threads := 1 } }

/-- A screen source descriptor. -/
def screenDesc : DeviceDescription :=
  { type := DeviceType.kDeviceTypeScreen, id := "m1", name := "Monitor 1", index := 0 }

/-- A camera source descriptor. -/
def cameraDesc : DeviceDescription :=
  { type := DeviceType.kDeviceTypeVideo, id := "cam0", name := "Camera", index := 0 }

/-- Sub-step outcomes where every platform call of set_camera succeeds. -/
def allOkSteps : CamSteps :=
  { createSource := true, createReader := true, createMediaType := true,
    setMajorType := true, setSubtype := true, setFrameSize := true,
    setFrameRate := true, setCurrentMediaType := true }

/-- Sub-step outcomes where MFCreateMediaType (the third sub-step) fails. -/
def noMediaTypeSteps : CamSteps :=
  { allOkSteps with createMediaType := false }

/-- A freshly created encoder session whose engine holds one key-frame packet. -/
def enc0 : VideoEncoder :=
  { output_packet := some { buffer := [], len := 0, flags := 0 },
    engineQueue := [{ data := [7], size := 1, flags := AV_PKT_FLAG_KEY }] }

/-- A fully initialised encoder session at destruction time. -/
def fullEncFields : VideoEncoderFields :=
  { context := true, packet := true, frame := true }

/-- A fully initialised decoder session at destruction time whose engine
produced planar (YUV420P) output, so conversion buffers exist. -/
def fullDecFields : VideoDecoderFields :=
  { format_format := some AV_PIX_FMT_YUV420P, outFrameData := true,
    context := true, parser := true, packet := true, frame := true }

/-- A first decoded engine frame: planar 4x4. -/
def decFrame1 : EngineFrame :=
  { format := AV_PIX_FMT_YUV420P, width := 4, height := 4, linesize0 := 4, linesize1 := 4 }

/-- A second decoded engine frame with different dimensions: planar 8x8. -/
def decFrame2 : EngineFrame :=
  { format := AV_PIX_FMT_YUV420P, width := 8, height := 8, linesize0 := 8, linesize1 := 8 }

/-- A fresh decoder session whose engine will deliver a 4x4 planar frame and
then an 8x8 planar frame. -/
def dec0 : VideoDecoderSt :=
  { format_format := none,
    output_frame := { width := 0, height := 0, allocDims := none,
                      linesize0 := 0, linesize1 := 0, lastConvDims := none },
    engineFrames := [decFrame1, decFrame2] }

/-- The decoder session after its first read_frame call. -/
def dec1 : VideoDecoderSt := (codec_video_decoder_read_frame dec0).snd

/-- An audio property list whose first entry is the backend's default-endpoint
entry. -/
def audioItems : List PropertyItem :=
  [{ id := "default", name := "Default Output" }, { id := "mic", name := "Microphone" }]

/- ===================== Helper lemmas ===================== -/

/-- Specification of the parse-and-submit loop shared by the video and audio
decoder send_packet implementations: when the loop terminates inside the
model, its boolean result is false exactly when the trace contains a failed
parser pass or a rejected engine submission, the trace interleaves one
submission directly after each completed access unit, and a true result means
the parser passes consumed the whole input buffer. -/
theorem send_loop_spec :
    ∀ (passes : List ParseStep) (engine : List Bool) (size : Nat) (out : SendOutcome),
      send_packet_loop passes engine size = some out →
      ((out.ok = false ↔ hasFailure out.evs = true) ∧
        goodShape out.evs = true ∧
        (out.ok = true → consumedSum out.evs = size)) := by
  intro passes
  induction passes with
  | nil =>
    intro engine size out h
    cases size with
    | zero =>
      simp only [send_packet_loop, Option.some.injEq] at h
      subst h
      simp [hasFailure, goodShape, consumedSum]
    | succ n => simp [send_packet_loop] at h
  | cons p ps ih =>
    intro engine size out h
    cases size with
    | zero =>
      simp only [send_packet_loop, Option.some.injEq] at h
      subst h
      simp [hasFailure, goodShape, consumedSum]
    | succ n =>
      cases p with
      | perr =>
        simp only [send_packet_loop, Option.some.injEq] at h
        subst h
        simp [hasFailure, goodShape, consumedSum]
      | pok c a =>
        cases a with
        | zero =>
          simp only [send_packet_loop] at h
          by_cases hc : c ≤ n + 1
          · rw [if_pos hc] at h
            cases hrec : send_packet_loop ps engine (n + 1 - c) with
            | none => rw [hrec] at h; simp at h
            | some o =>
              rw [hrec] at h
              simp only [Option.map_some', Option.some.injEq] at h
              subst h
              obtain ⟨h1, h2, h3⟩ := ih engine (n + 1 - c) o hrec
              refine ⟨?_, ?_, ?_⟩
              · simpa [hasFailure] using h1
              · simpa [goodShape] using h2
              · intro hok
                have := h3 hok
                simp only [consumedSum, this]
                omega
          · rw [if_neg hc] at h
            simp at h
        | succ a' =>
          cases engine with
          | nil => simp [send_packet_loop] at h
          | cons okB es =>
            cases okB with
            | true =>
              simp only [send_packet_loop] at h
              by_cases hc : c ≤ n + 1
              · rw [if_pos hc] at h
                cases hrec : send_packet_loop ps es (n + 1 - c) with
                | none => rw [hrec] at h; simp at h
                | some o =>
                  rw [hrec] at h
                  simp only [Option.map_some', Option.some.injEq] at h
                  subst h
                  obtain ⟨h1, h2, h3⟩ := ih es (n + 1 - c) o hrec
                  refine ⟨?_, ?_, ?_⟩
                  · simpa [hasFailure] using h1
                  · simpa [goodShape] using h2
                  · intro hok
                    have := h3 hok
                    simp only [consumedSum, this]
                    omega
              · rw [if_neg hc] at h
                simp at h
            | false =>
              simp only [send_packet_loop] at h
              by_cases hc : c ≤ n + 1
              · rw [if_pos hc] at h
                simp only [Option.some.injEq] at h
                subst h
                exact ⟨by simp [hasFailure], by simp [goodShape], by intro hok; simp at hok⟩
              · rw [if_neg hc] at h
                simp at h

/- ===================== Claim theorems ===================== -/

/-- C5: for every non-null input buffer given to decoder send_packet, the
bitstream parser is re-invoked in a loop until the whole buffer is consumed
(each pass advances by the number of bytes the parser consumed, which may be
less than the remaining size), every fully-parsed access unit produced by a
pass is submitted to the decoding engine before the next parser pass, and
send_packet returns failure exactly when a parser pass or an engine submission
fails.  The audio decoder's loop behaves identically to the video decoder's. -/
theorem C5_send_packet_parses_whole_buffer :
    ∀ (passes : List ParseStep) (engine : List Bool) (size : Nat),
      codec_audio_decoder_send_packet false size passes engine
        = codec_video_decoder_send_packet false size passes engine ∧
      ∀ out : SendOutcome,
        codec_video_decoder_send_packet false size passes engine = some out →
        ((out.ok = false ↔ hasFailure out.evs = true) ∧
          goodShape out.evs = true ∧
          (out.ok = true → consumedSum out.evs = size)) := by
  intro passes engine size
  refine ⟨rfl, ?_⟩
  intro out h
  simp only [codec_video_decoder_send_packet, Bool.false_eq_true, if_false] at h
  exact send_loop_spec passes engine size out h

/-- C5 witness: a 5-byte buffer parsed in two passes (2 bytes with no access
unit, then 3 bytes completing a 4-byte access unit) is fully consumed, the
access unit is submitted right after its pass, and the call succeeds. -/
theorem C5_send_packet_parses_whole_buffer_witness :
    (codec_audio_decoder_send_packet false 5 [ParseStep.pok 2 0, ParseStep.pok 3 4] [true]
      = codec_video_decoder_send_packet false 5 [ParseStep.pok 2 0, ParseStep.pok 3 4] [true]) ∧
    ((SendOutcome.ok ⟨true,
        [DecodeEv.parsePass 2 0, DecodeEv.parsePass 3 4, DecodeEv.submitAU 4 true],
        [], []⟩ = false ↔
      hasFailure [DecodeEv.parsePass 2 0, DecodeEv.parsePass 3 4, DecodeEv.submitAU 4 true]
        = true) ∧
      goodShape [DecodeEv.parsePass 2 0, DecodeEv.parsePass 3 4, DecodeEv.submitAU 4 true]
        = true ∧
      (SendOutcome.ok ⟨true,
        [DecodeEv.parsePass 2 0, DecodeEv.parsePass 3 4, DecodeEv.submitAU 4 true],
        [], []⟩ = true →
        consumedSum [DecodeEv.parsePass 2 0, DecodeEv.parsePass 3 4, DecodeEv.submitAU 4 true]
          = 5)) :=
  ⟨(C5_send_packet_parses_whole_buffer [ParseStep.pok 2 0, ParseStep.pok 3 4] [true] 5).1,
    (C5_send_packet_parses_whole_buffer [ParseStep.pok 2 0, ParseStep.pok 3 4] [true] 5).2
      ⟨true, [DecodeEv.parsePass 2 0, DecodeEv.parsePass 3 4, DecodeEv.submitAU 4 true], [], []⟩
      rfl⟩

/-- C6: calling decoder send_packet (video or audio) with a null buffer or a
zero-length buffer returns success, performs no parser pass and no engine
submission (empty event trace), and leaves the parser and engine oracles — the
session state — untouched, so no frame can result from that call. -/
theorem C6_send_packet_flush_noop :
    ∀ (bufIsNull : Bool) (size : Nat) (passes : List ParseStep) (engine : List Bool),
      (bufIsNull = true ∨ size = 0) →
      codec_video_decoder_send_packet bufIsNull size passes engine
        = some ⟨true, [], passes, engine⟩ ∧
      codec_audio_decoder_send_packet bufIsNull size passes engine
        = some ⟨true, [], passes, engine⟩ := by
  intro bufIsNull size passes engine h
  rcases h with h | h
  · subst h
    exact ⟨by simp [codec_video_decoder_send_packet],
           by simp [codec_audio_decoder_send_packet]⟩
  · subst h
    cases bufIsNull with
    | true =>
        exact ⟨by simp [codec_video_decoder_send_packet],
               by simp [codec_audio_decoder_send_packet]⟩
    | false =>
        exact ⟨by simp [codec_video_decoder_send_packet, send_packet_loop],
               by simp [codec_audio_decoder_send_packet, send_packet_loop]⟩

/-- C6 witness: a zero-length (non-null) buffer and a null buffer both give
success with no parser pass, no submission, and unchanged oracles. -/
theorem C6_send_packet_flush_noop_witness :
    codec_video_decoder_send_packet false 0 [ParseStep.pok 1 1] [true]
      = some ⟨true, [], [ParseStep.pok 1 1], [true]⟩ ∧
    codec_audio_decoder_send_packet false 0 [ParseStep.pok 1 1] [true]
      = some ⟨true, [], [ParseStep.pok 1 1], [true]⟩ :=
  C6_send_packet_flush_noop false 0 [ParseStep.pok 1 1] [true] (Or.inr rfl)

/-- C2 counterexample: in codec_video_encoder_read_packet (video_encode.cpp
lines 166-182) the engine's packet flags are copied verbatim and no
configuration packet is synthesised (the session is created without
AV_CODEC_FLAG_GLOBAL_HEADER, video_encode.cpp line 43, so the engine's first
packet is a key-frame media packet).  For a session whose engine emits a
key-frame packet first, the first non-null read_packet result carries the
key-frame flag and not the configuration flag, refuting the claim. -/
theorem C2_counterexample_first_packet_not_config :
    (codec_video_encoder_read_packet enc0).fst
      = some { buffer := [7], len := 1, flags := AV_PKT_FLAG_KEY } ∧
    AV_PKT_FLAG_KEY &&& BUFFER_FLAG_CONFIG = 0 := by
  exact ⟨rfl, rfl⟩

/-- C2 (amended): codec_video_encoder_read_packet returns the engine's packets
in order, with buffer, length and flags copied verbatim from the engine; the
layer neither synthesises a configuration packet nor sets any flag, so the
first non-null result is simply the engine's first emitted packet. -/
theorem C2_read_packet_passthrough :
    ∀ (n : Nat) (c : VideoEncoder), c.output_packet.isSome = true →
      readPackets c n = (c.engineQueue.take n).map toEncodePacket := by
  intro n
  induction n with
  | zero => intro c _; simp [readPackets]
  | succ n ih =>
    intro c h
    cases hop : c.output_packet with
    | none => rw [hop] at h; simp at h
    | some op =>
      cases hq : c.engineQueue with
      | nil =>
        simp [readPackets, codec_video_encoder_read_packet, hop, hq]
      | cons p rest =>
        have hrec := ih { output_packet := some (toEncodePacket p), engineQueue := rest }
          (by simp)
        simp [readPackets, codec_video_encoder_read_packet, hop, hq, hrec]

/-- C2 witness: on the concrete session enc0 the single engine packet is
returned verbatim as the first (and only) read_packet result. -/
theorem C2_read_packet_passthrough_witness :
    readPackets enc0 2 = (enc0.engineQueue.take 2).map toEncodePacket :=
  C2_read_packet_passthrough 2 enc0 rfl

/-- Helper: set_camera never clears is_runing — a camera loop already running
keeps running through any set_camera call. -/
theorem set_camera_keeps_runing (st : CameraState) (s : CamSteps) :
    st.is_runing = true → ((set_camera st s).snd).is_runing = true := by
  intro h
  simp only [set_camera]
  repeat' split
  all_goals simp_all

/-- Helper: set_camera never clears the source, reader or kind allocation
flags — no failure path releases a previously created resource. -/
theorem set_camera_monotone (st : CameraState) (s : CamSteps) :
    (st.source = true → ((set_camera st s).snd).source = true) ∧
    (st.reader = true → ((set_camera st s).snd).reader = true) ∧
    (st.kind = true → ((set_camera st s).snd).kind = true) := by
  simp only [set_camera]
  repeat' split
  all_goals simp_all

/-- C1 counterexample: starting from a freshly started capture context,
set_input for a screen followed by set_input for a camera (capture.cpp lines
592-612) leaves BOTH the obs compositor backend (the monitor scene item stays
visible, feeding raw_video_callback) and the new camera frame_loop thread
emitting frames into the output callback: two backends are active in the same
dispatch window, because set_camera (lines 315-377) contains no deactivation
of the previously active backend. -/
theorem C1_counterexample_two_active_backends :
    activeVideoBackends
      ((capture_set_video_input
        ((capture_set_video_input captureAfterStart screenDesc allOkSteps).snd)
        cameraDesc allOkSteps).snd) = 2 := by
  decide

/-- C1 (amended): capture_set_video_input keeps at most one of the two
compositor sources (monitor, window) visible — activating either hides the
other — but it performs no deactivation of other backends: selecting a camera
leaves the compositor visibility flags untouched and never stops an already
running camera loop, so the single-active-backend property does not hold
across backend kinds. -/
theorem C1_compositor_visibility_exclusive :
    ∀ (st : CaptureState) (d : DeviceDescription) (steps : CamSteps),
      (¬(st.monitorVisible = true ∧ st.windowVisible = true) →
        ¬(((capture_set_video_input st d steps).snd).monitorVisible = true ∧
          ((capture_set_video_input st d steps).snd).windowVisible = true)) ∧
      (d.type = DeviceType.kDeviceTypeVideo →
        ((capture_set_video_input st d steps).snd).monitorVisible = st.monitorVisible ∧
        ((capture_set_video_input st d steps).snd).windowVisible = st.windowVisible) ∧
      (st.camera.is_runing = true →
        ((capture_set_video_input st d steps).snd).camera.is_runing = true) := by
  intro st d steps
  cases hd : d.type with
  | kDeviceTypeVideo =>
      refine ⟨?_, ?_, ?_⟩
      · intro h
        simpa [capture_set_video_input, hd] using h
      · intro _
        simp [capture_set_video_input, hd]
      · intro h
        simpa [capture_set_video_input, hd] using set_camera_keeps_runing st.camera steps h
  | kDeviceTypeScreen =>
      refine ⟨?_, ?_, ?_⟩
      · intro _
        simp [capture_set_video_input, hd]
      · intro hv
        exact absurd hv (by decide)
      · intro h
        simpa [capture_set_video_input, hd] using h
  | kDeviceTypeAudio =>
      refine ⟨?_, ?_, ?_⟩
      · intro h
        simpa [capture_set_video_input, hd] using h
      · intro hv
        exact absurd hv (by decide)
      · intro h
        simpa [capture_set_video_input, hd] using h
  | kDeviceTypeWindow =>
      refine ⟨?_, ?_, ?_⟩
      · intro _
        simp [capture_set_video_input, hd]
      · intro hv
        exact absurd hv (by decide)
      · intro h
        simpa [capture_set_video_input, hd] using h

/-- C1 witness: with a camera already running, selecting the camera input
again keeps the compositor sources mutually non-visible and keeps the camera
loop running. -/
theorem C1_compositor_visibility_exclusive_witness :
    (¬(((capture_set_video_input captureCamOn cameraDesc allOkSteps).snd).monitorVisible = true ∧
       ((capture_set_video_input captureCamOn cameraDesc allOkSteps).snd).windowVisible = true)) ∧
    ((capture_set_video_input captureCamOn cameraDesc allOkSteps).snd).camera.is_runing = true :=
  ⟨(C1_compositor_visibility_exclusive captureCamOn cameraDesc allOkSteps).1 (by decide),
   (C1_compositor_visibility_exclusive captureCamOn cameraDesc allOkSteps).2.2 (by decide)⟩

/-- C3 counterexample: when the third sub-step of set_camera
(MFCreateMediaType, capture.cpp line 332) fails, the call returns -3 while the
device source and reader created by the first two sub-steps remain allocated
in the global camera state — nothing is released before the error return, so
partially-constructed state stays reachable, refuting the claim. -/
theorem C3_counterexample_leak_on_failure :
    (set_camera camInit noMediaTypeSteps).fst = -3 ∧
    ((set_camera camInit noMediaTypeSteps).snd).source = true ∧
    ((set_camera camInit noMediaTypeSteps).snd).reader = true := by
  decide

/-- C3 (amended): on failure set_camera returns a negative code identifying
the failed sub-step and starts no capture thread (is_runing and the thread
count are untouched), but it performs no rollback: resources created by the
already completed sub-steps remain allocated (the allocation flags are
monotone — set_camera never releases anything; release happens only in
stop_camera). -/
theorem C3_no_rollback_on_failure :
    ∀ (st : CameraState) (s : CamSteps),
      ((set_camera st s).fst ≠ 0 →
        ((set_camera st s).snd).threads = st.threads ∧
        ((set_camera st s).snd).is_runing = st.is_runing) ∧
      (st.source = true → ((set_camera st s).snd).source = true) ∧
      (st.reader = true → ((set_camera st s).snd).reader = true) ∧
      (st.kind = true → ((set_camera st s).snd).kind = true) := by
  intro st s
  refine ⟨?_, set_camera_monotone st s⟩
  simp only [set_camera]
  repeat' split
  all_goals simp_all

/-- C3 witness: with all three resources already held, a failure at the
media-type sub-step leaves the thread count unchanged and the device source
still allocated. -/
theorem C3_no_rollback_on_failure_witness :
    ((set_camera camAllRes noMediaTypeSteps).snd).threads = camAllRes.threads ∧
    ((set_camera camAllRes noMediaTypeSteps).snd).source = true :=
  ⟨((C3_no_rollback_on_failure camAllRes noMediaTypeSteps).1 (by decide)).1,
   (C3_no_rollback_on_failure camAllRes noMediaTypeSteps).2.1 (by decide)⟩

/-- C4 counterexample: the decoder's conversion buffers are allocated on the
first planar frame (4x4), but a later frame with different dimensions (8x8)
does NOT surface an error: read_frame (video_decode.cpp lines 200-252) makes
no dimension comparison, returns the frame successfully, and converts with
the new 8x8 dimensions into the buffer sized for 4x4 — silent truncation
rather than the claimed error. -/
theorem C4_counterexample_dimension_change_not_error :
    ((codec_video_decoder_read_frame dec1).fst).isSome = true ∧
    ((codec_video_decoder_read_frame dec1).snd).output_frame.allocDims = some (4, 4) ∧
    ((codec_video_decoder_read_frame dec1).snd).output_frame.lastConvDims = some (8, 8) := by
  decide

/-- C4 (amended): the conversion buffer is allocated at most once per session —
on the first decoded frame, sized from that frame's dimensions, whenever that
frame's layout differs from semi-planar NV12 — and is reused unchanged for
every later frame; but a later frame whose dimensions differ is NOT surfaced
as an error: read_frame succeeds on every received frame and converts with the
new dimensions into the originally sized buffer. -/
theorem C4_single_allocation_no_dim_check :
    ∀ (c : VideoDecoderSt),
      (c.format_format.isSome = true →
        ((codec_video_decoder_read_frame c).snd).output_frame.allocDims
          = c.output_frame.allocDims) ∧
      (∀ f rest, c.engineFrames = f :: rest →
        ((codec_video_decoder_read_frame c).fst).isSome = true) ∧
      (∀ f rest, c.engineFrames = f :: rest → c.format_format = none →
        f.format ≠ AV_PIX_FMT_NV12 →
        ((codec_video_decoder_read_frame c).snd).output_frame.allocDims
          = some (f.width, f.height) ∧
        ((codec_video_decoder_read_frame c).snd).format_format = some f.format) := by
  intro c
  refine ⟨?_, ?_, ?_⟩
  · intro hsome
    cases hq : c.engineFrames with
    | nil => simp [codec_video_decoder_read_frame, hq]
    | cons f rest =>
      have hne : ¬ c.format_format = none := by
        cases hff : c.format_format with
        | none => rw [hff] at hsome; simp at hsome
        | some v => simp
      simp only [codec_video_decoder_read_frame, hq, hne, if_false, ite_false, if_neg,
        not_false_eq_true]
      split <;> simp
  · intro f rest hq
    simp [codec_video_decoder_read_frame, hq]
  · intro f rest hq hff hfmt
    simp [codec_video_decoder_read_frame, hq, hff, hfmt]

/-- C4 witness: after the first read on dec0 (which allocated for 4x4) the
session has a recorded format, so the second read leaves the allocation
dimensions unchanged and still produces a frame. -/
theorem C4_single_allocation_no_dim_check_witness :
    (((codec_video_decoder_read_frame dec1).snd).output_frame.allocDims
      = dec1.output_frame.allocDims) ∧
    (((codec_video_decoder_read_frame dec0).snd).output_frame.allocDims
      = some (4, 4) ∧
     ((codec_video_decoder_read_frame dec0).snd).format_format
      = some AV_PIX_FMT_YUV420P) :=
  ⟨(C4_single_allocation_no_dim_check dec1).1 (by decide),
   (C4_single_allocation_no_dim_check dec0).2.2 decFrame1 [decFrame2] rfl
     rfl (by decide)⟩

/-- C8 counterexample: codec_release_video_encoder (video_encode.cpp lines
189-208) frees the codec engine handle (avcodec_free_context) FIRST, before
the packet and frame buffers, so a mock engine asserting
buffers-before-handle order would fail: in the release trace of a fully
initialised encoder the context release precedes the packet and frame
releases. -/
theorem C8_counterexample_context_freed_first :
    codec_release_video_encoder_trace fullEncFields
      = [ReleaseEv.freeContext, ReleaseEv.freePacket, ReleaseEv.freeFrame,
         ReleaseEv.freeStaging] ∧
    ¬((codec_release_video_encoder_trace fullEncFields).indexOf ReleaseEv.freePacket
        < (codec_release_video_encoder_trace fullEncFields).indexOf ReleaseEv.freeContext) ∧
    ¬((codec_release_video_encoder_trace fullEncFields).indexOf ReleaseEv.freeFrame
        < (codec_release_video_encoder_trace fullEncFields).indexOf ReleaseEv.freeContext) := by
  decide

/-- C8 (amended): destroying a fully initialised codec session releases the
codec engine handle (context) first and the packet/frame staging objects
after it; the only buffer released before the engine handle is the decoder's
conversion buffer (present when a non-NV12 first-frame format was recorded). -/
theorem C8_release_order :
    codec_release_video_encoder_trace fullEncFields
      = [ReleaseEv.freeContext, ReleaseEv.freePacket, ReleaseEv.freeFrame,
         ReleaseEv.freeStaging] ∧
    codec_release_video_decoder_trace fullDecFields
      = [ReleaseEv.freeConvBuffers, ReleaseEv.freeContext, ReleaseEv.freeParser,
         ReleaseEv.freePacket, ReleaseEv.freeFrame, ReleaseEv.freeStaging] := by
  decide

/-- C7 counterexample: a successful platform enumeration call reporting zero
attached cameras makes enum_camera (capture.cpp line 204) return status -1 —
an enumeration error — not the claimed success with an empty list. -/
theorem C7_counterexample_zero_devices_is_error :
    (enum_camera (some [])).fst = -1 ∧ (-1 : Int) ≠ 0 := by
  decide

/-- C7 (amended): enum_camera fails (status -1) exactly when the underlying
platform enumeration call fails OR succeeds with zero attached devices; it
succeeds (status 0) only when the platform call returns at least one device,
and the status is always 0 or -1. -/
theorem C7_enum_error_iff :
    ∀ platform : Option (List CamDeviceRead),
      ((enum_camera platform).fst = 0 ↔
        ∃ devs, platform = some devs ∧ devs ≠ []) ∧
      ((enum_camera platform).fst = 0 ∨ (enum_camera platform).fst = -1) := by
  intro platform
  cases platform with
  | none => simp [enum_camera]
  | some devs =>
    cases devs with
    | nil => simp [enum_camera]
    | cons d ds =>
      constructor
      · simp only [enum_camera, List.length_cons]
        constructor
        · intro _
          exact ⟨d :: ds, rfl, by simp⟩
        · intro _
          simp
      · left
        simp [enum_camera]

/-- C7 witness: with one attached camera the platform call succeeds and
enum_camera returns status 0. -/
theorem C7_enum_error_iff_witness :
    (enum_camera (some [CamDeviceRead.nameOk "cam"])).fst = 0 :=
  ((C7_enum_error_iff (some [CamDeviceRead.nameOk "cam"])).1).mpr
    ⟨[CamDeviceRead.nameOk "cam"], rfl, by simp⟩

/-- Helper: when no property item is skipped, the index fields produced by
device_list_loop starting at counter i are i, i+1, ... in order. -/
theorem device_list_loop_indices (type : DeviceType) :
    ∀ (items : List PropertyItem) (i : Nat),
      (∀ it ∈ items, ¬(type = DeviceType.kDeviceTypeAudio ∧ it.id = "default")) →
      (device_list_loop type items i).map DeviceDescription.index
        = List.range' i items.length := by
  intro items
  induction items with
  | nil => intro i _; simp [device_list_loop]
  | cons it rest ih =>
    intro i hns
    have h1 : ¬(type = DeviceType.kDeviceTypeAudio ∧ it.id = "default") :=
      hns it (by simp)
    rw [device_list_loop, if_neg h1]
    simp only [List.map_cons, List.length_cons, List.range'_succ]
    rw [ih (i + 1) (fun x hx => hns x (by simp [hx]))]

/-- Helper: when every camera device read succeeds, the index fields produced
by enum_camera_loop starting at counter i are i, i+1, ... in order. -/
theorem enum_camera_loop_indices :
    ∀ (reads : List CamDeviceRead) (i : Nat),
      (∀ r ∈ reads, ∃ n, r = CamDeviceRead.nameOk n) →
      (enum_camera_loop reads i).map DeviceDescription.index
        = List.range' i reads.length := by
  intro reads
  induction reads with
  | nil => intro i _; simp [enum_camera_loop]
  | cons r rest ih =>
    intro i hok
    obtain ⟨n, rfl⟩ := hok r (by simp)
    rw [enum_camera_loop]
    simp only [List.map_cons, List.length_cons, List.range'_succ]
    rw [ih (i + 1) (fun x hx => hok x (by simp [hx]))]

/-- C9 counterexample: enumerating audio devices over a property list whose
first entry is the backend's "default" endpoint (which the loop skips,
capture.cpp lines 652-656) returns a single descriptor that sits at position
0 of the returned list but carries index 1 — the skipped entry's property
index is not compacted, refuting position-equals-index. -/
theorem C9_counterexample_skipped_entry_index :
    ((capture_get_device_list DeviceType.kDeviceTypeAudio audioItems).snd).length = 1 ∧
    ((capture_get_device_list DeviceType.kDeviceTypeAudio audioItems).snd).head?.map
      DeviceDescription.index = some 1 ∧
    (some 1 : Option Nat) ≠ some 0 := by
  decide

/-- C9 (amended): the index field records the position in the underlying
platform/property list (the enumeration loop counter), so it equals the
position in the returned list exactly when no entry is skipped: for
capture_get_device_list whenever no audio item has id "default" (in
particular for all non-audio kinds), and for enum_camera whenever every
device read succeeds, the returned index fields are 0, 1, 2, ... in order. -/
theorem C9_index_is_platform_position :
    (∀ (type : DeviceType) (items : List PropertyItem),
      (∀ it ∈ items, ¬(type = DeviceType.kDeviceTypeAudio ∧ it.id = "default")) →
      ((capture_get_device_list type items).snd).map DeviceDescription.index
        = List.range' 0 items.length) ∧
    (∀ reads : List CamDeviceRead,
      (∀ r ∈ reads, ∃ n, r = CamDeviceRead.nameOk n) →
      ((enum_camera (some reads)).snd).map DeviceDescription.index
        = List.range' 0 reads.length) := by
  constructor
  · intro type items hns
    exact device_list_loop_indices type items 0 hns
  · intro reads hok
    cases reads with
    | nil => simp [enum_camera]
    | cons r rest =>
      simp only [enum_camera, List.length_cons]
      rw [if_neg (by simp)]
      exact enum_camera_loop_indices (r :: rest) 0 hok

/-- C9 witness: a two-monitor screen enumeration (nothing skipped) yields
indices 0, 1; a two-camera enumeration with all reads succeeding yields
indices 0, 1. -/
theorem C9_index_is_platform_position_witness :
    ((capture_get_device_list DeviceType.kDeviceTypeScreen
        [{ id := "m1", name := "A" }, { id := "m2", name := "B" }]).snd).map
      DeviceDescription.index = List.range' 0 2 ∧
    ((enum_camera (some [CamDeviceRead.nameOk "c1", CamDeviceRead.nameOk "c2"])).snd).map
      DeviceDescription.index = List.range' 0 2 :=
  ⟨C9_index_is_platform_position.1 DeviceType.kDeviceTypeScreen
      [{ id := "m1", name := "A" }, { id := "m2", name := "B" }] (by decide),
   C9_index_is_platform_position.2 [CamDeviceRead.nameOk "c1", CamDeviceRead.nameOk "c2"]
      (by
        intro r hr
        simp only [List.mem_cons, List.not_mem_nil, or_false] at hr
        rcases hr with rfl | rfl
        · exact ⟨"c1", rfl⟩
        · exact ⟨"c2", rfl⟩)⟩

/-- Helper: the audio branch of the device-list loop never emits a descriptor
with id "default", and every non-default item is emitted with its id and
name. -/
theorem device_list_loop_audio_filter :
    ∀ (items : List PropertyItem) (i : Nat),
      (∀ d ∈ device_list_loop DeviceType.kDeviceTypeAudio items i, d.id ≠ "default") ∧
      (∀ it ∈ items, it.id ≠ "default" →
        ∃ d ∈ device_list_loop DeviceType.kDeviceTypeAudio items i,
          d.id = it.id ∧ d.name = it.name) := by
  intro items
  induction items with
  | nil => intro i; simp [device_list_loop]
  | cons it rest ih =>
    intro i
    by_cases hdef : it.id = "default"
    · rw [device_list_loop, if_pos ⟨rfl, hdef⟩]
      constructor
      · exact (ih (i + 1)).1
      · intro x hx hxid
        rcases List.mem_cons.mp hx with rfl | hx
        · exact absurd hdef hxid
        · obtain ⟨d, hd, hdi, hdn⟩ := (ih (i + 1)).2 x hx hxid
          exact ⟨d, hd, hdi, hdn⟩
    · rw [device_list_loop, if_neg (fun hc => hdef hc.2)]
      constructor
      · intro d hd
        rcases List.mem_cons.mp hd with rfl | hd
        · exact hdef
        · exact (ih (i + 1)).1 d hd
      · intro x hx hxid
        rcases List.mem_cons.mp hx with rfl | hx
        · exact ⟨{ type := DeviceType.kDeviceTypeAudio, id := x.id, name := x.name,
                   index := i }, by simp, rfl, rfl⟩
        · obtain ⟨d, hd, hdi, hdn⟩ := (ih (i + 1)).2 x hx hxid
          exact ⟨d, by simp [hd], hdi, hdn⟩

/-- C10: an audio enumeration never returns a descriptor whose id is
"default" — the backend's default-endpoint entry is filtered out (capture.cpp
lines 651-656) — while every other audio entry of the property list is
returned with its id and name. -/
theorem C10_audio_default_filtered :
    ∀ (items : List PropertyItem),
      (∀ d ∈ (capture_get_device_list DeviceType.kDeviceTypeAudio items).snd,
        d.id ≠ "default") ∧
      (∀ it ∈ items, it.id ≠ "default" →
        ∃ d ∈ (capture_get_device_list DeviceType.kDeviceTypeAudio items).snd,
          d.id = it.id ∧ d.name = it.name) := by
  intro items
  exact device_list_loop_audio_filter items 0

/-- C10 witness: on the concrete audio property list, the returned "mic"
descriptor has id different from "default" and the "mic" entry is present. -/
theorem C10_audio_default_filtered_witness :
    ({ type := DeviceType.kDeviceTypeAudio, id := "mic", name := "Microphone",
       index := 1 } : DeviceDescription).id ≠ "default" ∧
    ∃ d ∈ (capture_get_device_list DeviceType.kDeviceTypeAudio audioItems).snd,
      d.id = "mic" ∧ d.name = "Microphone" :=
  ⟨(C10_audio_default_filtered audioItems).1
      { type := DeviceType.kDeviceTypeAudio, id := "mic", name := "Microphone", index := 1 }
      (by decide),
   (C10_audio_default_filtered audioItems).2
      { id := "mic", name := "Microphone" } (by decide) (by decide)⟩
